import Mathlib

/-!
Verification of the admission-webhook policy core: a shallow embedding of
the validator chain (src/validators/base.py, security.py, image_policy.py,
resource_requirements.py) and the mutator chain (src/mutators/base.py,
defaults.py), with Python dict/list values modelled as a JSON-like
inductive and Python exceptions modelled with `Except`.
-/

namespace Webhook

/-- JSON-like Python value: the shape of `review.dict()` payloads.
Numbers are modelled as integers (no claim touches floats). -/
inductive Json where
  | null
  | bool (b : Bool)
  | num (n : Int)
  | str (s : String)
  | arr (xs : List Json)
  | obj (kvs : List (String × Json))
deriving Repr

mutual

/-- Decidable structural equality on values. -/
def Json.decEq : (a b : Json) → Decidable (a = b)
  | .null, .null => isTrue rfl
  | .bool a, .bool b =>
    match Bool.decEq a b with
    | isTrue h => isTrue (h ▸ rfl)
    | isFalse h => isFalse (fun hh => h (Json.bool.inj hh))
  | .num a, .num b =>
    match Int.decEq a b with
    | isTrue h => isTrue (h ▸ rfl)
    | isFalse h => isFalse (fun hh => h (Json.num.inj hh))
  | .str a, .str b =>
    match String.decEq a b with
    | isTrue h => isTrue (h ▸ rfl)
    | isFalse h => isFalse (fun hh => h (Json.str.inj hh))
  | .arr xs, .arr ys =>
    match Json.decEqList xs ys with
    | isTrue h => isTrue (h ▸ rfl)
    | isFalse h => isFalse (fun hh => h (Json.arr.inj hh))
  | .obj a, .obj b =>
    match Json.decEqKVs a b with
    | isTrue h => isTrue (h ▸ rfl)
    | isFalse h => isFalse (fun hh => h (Json.obj.inj hh))
  | .null, .bool _ => isFalse (fun h => Json.noConfusion h)
  | .null, .num _ => isFalse (fun h => Json.noConfusion h)
  | .null, .str _ => isFalse (fun h => Json.noConfusion h)
  | .null, .arr _ => isFalse (fun h => Json.noConfusion h)
  | .null, .obj _ => isFalse (fun h => Json.noConfusion h)
  | .bool _, .null => isFalse (fun h => Json.noConfusion h)
  | .bool _, .num _ => isFalse (fun h => Json.noConfusion h)
  | .bool _, .str _ => isFalse (fun h => Json.noConfusion h)
  | .bool _, .arr _ => isFalse (fun h => Json.noConfusion h)
  | .bool _, .obj _ => isFalse (fun h => Json.noConfusion h)
  | .num _, .null => isFalse (fun h => Json.noConfusion h)
  | .num _, .bool _ => isFalse (fun h => Json.noConfusion h)
  | .num _, .str _ => isFalse (fun h => Json.noConfusion h)
  | .num _, .arr _ => isFalse (fun h => Json.noConfusion h)
  | .num _, .obj _ => isFalse (fun h => Json.noConfusion h)
  | .str _, .null => isFalse (fun h => Json.noConfusion h)
  | .str _, .bool _ => isFalse (fun h => Json.noConfusion h)
  | .str _, .num _ => isFalse (fun h => Json.noConfusion h)
  | .str _, .arr _ => isFalse (fun h => Json.noConfusion h)
  | .str _, .obj _ => isFalse (fun h => Json.noConfusion h)
  | .arr _, .null => isFalse (fun h => Json.noConfusion h)
  | .arr _, .bool _ => isFalse (fun h => Json.noConfusion h)
  | .arr _, .num _ => isFalse (fun h => Json.noConfusion h)
  | .arr _, .str _ => isFalse (fun h => Json.noConfusion h)
  | .arr _, .obj _ => isFalse (fun h => Json.noConfusion h)
  | .obj _, .null => isFalse (fun h => Json.noConfusion h)
  | .obj _, .bool _ => isFalse (fun h => Json.noConfusion h)
  | .obj _, .num _ => isFalse (fun h => Json.noConfusion h)
  | .obj _, .str _ => isFalse (fun h => Json.noConfusion h)
  | .obj _, .arr _ => isFalse (fun h => Json.noConfusion h)

/-- Decidable equality on value lists. -/
def Json.decEqList : (xs ys : List Json) → Decidable (xs = ys)
  | [], [] => isTrue rfl
  | x :: xs, y :: ys =>
    match Json.decEq x y with
    | isFalse h => isFalse (fun hh => h (List.cons.inj hh).1)
    | isTrue h1 =>
      match Json.decEqList xs ys with
      | isTrue h2 => isTrue (by rw [h1, h2])
      | isFalse h2 => isFalse (fun hh => h2 (List.cons.inj hh).2)
  | [], _ :: _ => isFalse (fun h => List.noConfusion h)
  | _ :: _, [] => isFalse (fun h => List.noConfusion h)

/-- Decidable equality on dict entry lists. -/
def Json.decEqKVs : (a b : List (String × Json)) → Decidable (a = b)
  | [], [] => isTrue rfl
  | (k, v) :: xs, (k', v') :: ys =>
    match String.decEq k k' with
    | isFalse h =>
        isFalse (fun hh => h (congrArg Prod.fst (List.cons.inj hh).1))
    | isTrue h1 =>
      match Json.decEq v v' with
      | isFalse h =>
          isFalse (fun hh => h (congrArg Prod.snd (List.cons.inj hh).1))
      | isTrue h2 =>
        match Json.decEqKVs xs ys with
        | isTrue h3 => isTrue (by rw [h1, h2, h3])
        | isFalse h3 => isFalse (fun hh => h3 (List.cons.inj hh).2)
  | [], _ :: _ => isFalse (fun h => List.noConfusion h)
  | _ :: _, [] => isFalse (fun h => List.noConfusion h)

end

instance : DecidableEq Json := Json.decEq

instance {ε α : Type} [DecidableEq ε] [DecidableEq α] :
    DecidableEq (Except ε α) := fun a b =>
  match a, b with
  | .error e, .error f =>
    match inferInstanceAs (Decidable (e = f)) with
    | isTrue h => isTrue (h ▸ rfl)
    | isFalse h => isFalse (fun hh => h (Except.error.inj hh))
  | .ok x, .ok y =>
    match inferInstanceAs (Decidable (x = y)) with
    | isTrue h => isTrue (h ▸ rfl)
    | isFalse h => isFalse (fun hh => h (Except.ok.inj hh))
  | .error _, .ok _ => isFalse (fun h => Except.noConfusion h)
  | .ok _, .error _ => isFalse (fun h => Except.noConfusion h)

/-- Entries of a Python dict in insertion order. -/
abbrev JDict := List (String × Json)

/-- `d.get(k)` without default: first (only) binding of `k`. -/
def getK (m : JDict) (k : String) : Option Json :=
  (m.find? (fun p => p.1 = k)).map (fun p => p.2)

/-- `d.get(k, default)`. -/
def getD (m : JDict) (k : String) (d : Json) : Json :=
  (getK m k).getD d

/-- `k in d` for a dict. -/
def containsK (m : JDict) (k : String) : Bool :=
  (getK m k).isSome

/-- `d[k] = v`: replace in place (keeping the key's position) or append. -/
def setK : JDict → String → Json → JDict
  | [], k, v => [(k, v)]
  | (k', v') :: rest, k, v =>
      if k' = k then (k, v) :: rest else (k', v') :: setK rest k v

/-- `d.update(other)` where `other` is a string-valued config dict:
set each pair of `other` in order. -/
def updStr (base : JDict) (pairs : List (String × String)) : JDict :=
  pairs.foldl (fun acc kv => setK acc kv.1 (Json.str kv.2)) base

/-- Python type name of a value, as it appears in error messages. -/
def pyTypeName : Json → String
  | .null => "NoneType"
  | .bool _ => "bool"
  | .num _ => "int"
  | .str _ => "str"
  | .arr _ => "list"
  | .obj _ => "dict"

/-- Text of `AttributeError` raised by `value.attr` / `value.attr(...)`. -/
def attrErr (ty attr : String) : String :=
  "'" ++ ty ++ "' object has no attribute '" ++ attr ++ "'"

/-- Text of `TypeError` raised by `value[k] = ...` on a non-dict. -/
def itemAssignErr (ty : String) : String :=
  "'" ++ ty ++ "' object does not support item assignment"

/-- Text of `TypeError` raised by iterating / `in` on a non-container. -/
def notIterableErr (ty : String) : String :=
  "argument of type '" ++ ty ++ "' is not iterable"

/-- Python truthiness of a value. -/
def truthy : Json → Bool
  | .null => false
  | .bool b => b
  | .num n => n ≠ 0
  | .str s => s ≠ ""
  | .arr xs => !xs.isEmpty
  | .obj m => !m.isEmpty

/-- `pat` is a prefix of the character list. -/
def listHasPrefix : List Char → List Char → Bool
  | _, [] => true
  | [], _ :: _ => false
  | c :: cs, p :: ps => c = p && listHasPrefix cs ps

/-- `pat` occurs somewhere in the character list. -/
def listHasSubstr : List Char → List Char → Bool
  | [], pat => pat.isEmpty
  | c :: cs, pat => listHasPrefix (c :: cs) pat || listHasSubstr cs pat

/-- Substring test, `pat in t` for strings. -/
def hasSubstr (t pat : String) : Bool :=
  if pat = "" then true else listHasSubstr t.toList pat.toList

/-- `s.split("/")[0]`: the prefix of `s` before the first `/` (all of `s`
when no `/` occurs). -/
def beforeFirstSlash (s : String) : String :=
  String.mk (s.toList.takeWhile (fun c => c ≠ '/'))

/-- The text after the last `:` of `s` — the tag of an image reference,
in the sense of C9's wording. -/
def afterLastColon (s : String) : String :=
  String.mk ((s.toList.reverse.takeWhile (fun c => c ≠ ':')).reverse)

/-- `value.get(k, d)`: succeeds only on dicts, otherwise `AttributeError`. -/
def pyGetD (j : Json) (k : String) (d : Json) : Except String Json :=
  match j with
  | .obj m => .ok (getD m k d)
  | other => .error (attrErr (pyTypeName other) "get")

/-- `value.update(cfg)` for a string-valued config dict; `AttributeError`
on non-dicts. -/
def pyUpdate (j : Json) (pairs : List (String × String)) : Except String Json :=
  match j with
  | .obj m => .ok (.obj (updStr m pairs))
  | other => .error (attrErr (pyTypeName other) "update")

/-- `k in value` for a string key: key test on dicts, membership on lists,
substring on strings, `TypeError` otherwise. -/
def pyContains (j : Json) (k : String) : Except String Bool :=
  match j with
  | .obj m => .ok (containsK m k)
  | .arr xs => .ok (xs.any (fun x => match x with | .str s => s = k | _ => false))
  | .str t => .ok (hasSubstr t k)
  | other => .error (notIterableErr (pyTypeName other))

/-- `d[k] = v` when `d` is known to be a dict (no-op on other shapes,
which never reach this helper). -/
def setObj (j : Json) (k : String) (v : Json) : Json :=
  match j with
  | .obj m => .obj (setK m k v)
  | other => other

mutual

/-- Python `repr()` of a value (used when rendering nested containers). -/
def pyRepr : Json → String
  | .null => "None"
  | .bool true => "True"
  | .bool false => "False"
  | .num n => toString n
  | .str s => "'" ++ s ++ "'"
  | .arr xs => "[" ++ String.intercalate ", " (pyReprList xs) ++ "]"
  | .obj m => "\x7b" ++ String.intercalate ", " (pyReprKVs m) ++ "\x7d"

/-- `repr()` of each element of a list. -/
def pyReprList : List Json → List String
  | [] => []
  | x :: xs => pyRepr x :: pyReprList xs

/-- `repr()` of each `key: value` entry of a dict. -/
def pyReprKVs : List (String × Json) → List String
  | [] => []
  | (k, v) :: rest => ("'" ++ k ++ "': " ++ pyRepr v) :: pyReprKVs rest

end

/-- Python `str()` / f-string rendering of a value. -/
def pyStr : Json → String
  | .null => "None"
  | .bool true => "True"
  | .bool false => "False"
  | .num n => toString n
  | .str s => s
  | j => pyRepr j

/-- Text of `TypeError` raised by `for x in value` on a non-iterable. -/
def iterErr (ty : String) : String :=
  "'" ++ ty ++ "' object is not iterable"

/-- `for x in value`: elements of a list, keys of a dict,
characters of a string; `TypeError` otherwise. -/
def pyIterate (j : Json) : Except String (List Json) :=
  match j with
  | .arr xs => .ok xs
  | .obj m => .ok (m.map (fun kv => Json.str kv.1))
  | .str s => .ok (s.toList.map (fun ch => Json.str (String.singleton ch)))
  | other => .error (iterErr (pyTypeName other))

/-- `not j or k not in j` (short-circuiting, as in the source's guards). -/
def notOrMissing (j : Json) (k : String) : Except String Bool :=
  if !truthy j then .ok true
  else do
    let c ← pyContains j k
    pure (!c)

/-- `container.get("name")` on a known dict (default `None`). -/
def nameOf (c : Json) : Json :=
  match c with
  | .obj m => getD m "name" .null
  | _ => .null

/-- src/src/schemas/admission.py `ValidationResult`. -/
structure ValidationResult where
  allowed : Bool
  message : Option String := none
  warnings : Option (List String) := none
deriving DecidableEq, Repr

/-- `supports` shared by SecurityContextValidator, ImagePolicyValidator and
ResourceRequirementsValidator: kind read from the envelope is Pod or
Deployment; any exception yields `False`. -/
def supportsKind (r : Json) : Bool :=
  match (do
      let req ← pyGetD r "request" (.obj [])
      let kd ← pyGetD req "kind" (.obj [])
      pyGetD kd "kind" (.str "") : Except String Json) with
  | .ok v => v = Json.str "Pod" || v = Json.str "Deployment"
  | .error _ => false

/-- Try-block of `BaseValidator.validate` (src/src/validators/base.py). -/
def baseBody (sup : Json → Bool) (vld : Json → ValidationResult) (ar : Json) :
    Except String ValidationResult := do
  let bad1 ← notOrMissing ar "request"
  if bad1 then return ⟨false, some "Invalid admission request format", none⟩
  let req ← pyGetD ar "request" (.obj [])
  let bad2 ← notOrMissing req "object"
  if bad2 then return ⟨false, some "Missing request object", none⟩
  if !sup ar then
    return ⟨true, some "Validator does not support this request type", none⟩
  return vld req

/-- `BaseValidator.validate`: the try-block with the catch-all except
clause turning an exception's text into a denial. -/
def baseValidate (sup : Json → Bool) (vld : Json → ValidationResult)
    (ar : Json) : ValidationResult :=
  match baseBody sup vld ar with
  | .ok r => r
  | .error e => ⟨false, some e, none⟩

/-- Per-container loop of `SecurityContextValidator._validate`
(src/src/validators/security.py lines 34-49). -/
def secLoop (ep enr err : Bool) : List Json → Except String ValidationResult
  | [] => .ok ⟨true, some "Security context validation passed", none⟩
  | c :: rest => do
    let sc ← pyGetD c "securityContext" (.obj [])
    let privTruthy ←
      if ep then do
        let p ← pyGetD sc "privileged" (.bool false)
        pure (truthy p)
      else pure false
    if privTruthy then
      return ⟨false, some "Privileged containers are not allowed", none⟩
    let rootHit ←
      if enr then do
        let ru ← pyGetD sc "runAsUser" .null
        -- `run_as_user is not None and run_as_user == 0` (`False == 0` in Python)
        pure (ru ≠ Json.null && (ru = Json.num 0 || ru = Json.bool false))
      else pure false
    if rootHit then
      return ⟨false, some "Running as root is not allowed", none⟩
    let roMiss ←
      if err then do
        let ro ← pyGetD sc "readOnlyRootFilesystem" (.bool false)
        pure (!truthy ro)
      else pure false
    if roMiss then
      return ⟨false, some "Root filesystem must be read-only", none⟩
    secLoop ep enr err rest

/-- Try-block of `SecurityContextValidator._validate`. -/
def secBody (ep enr err ehn : Bool) (request : Json) :
    Except String ValidationResult := do
  let pod ← pyGetD request "object" (.obj [])
  let bad ← notOrMissing pod "spec"
  if bad then return ⟨false, some "Invalid pod specification", none⟩
  let spec ← pyGetD pod "spec" (.obj [])
  let containers ← pyGetD spec "containers" (.arr [])
  let hnTruthy ←
    if ehn then do
      let hn ← pyGetD spec "hostNetwork" (.bool false)
      pure (truthy hn)
    else pure false
  if hnTruthy then
    return ⟨false, some "Host network access is not allowed", none⟩
  let elems ← pyIterate containers
  secLoop ep enr err elems

/-- `SecurityContextValidator._validate` with its catch-all except clause. -/
def secValidate (ep enr err ehn : Bool) (request : Json) : ValidationResult :=
  match secBody ep enr err ehn request with
  | .ok r => r
  | .error e =>
      ⟨false, some ("Security context validation error: " ++ e), none⟩

/-- `SecurityContextValidator.validate` (the override, src/src/validators/
security.py lines 63-81) as invoked by `ValidatorChain` on the dict
produced by `review.dict()`: its first expression `request.request` is an
attribute access on a dict, which raises `AttributeError`; the except
clause returns the exception text as the denial message, so the rest of
the body is unreachable in this calling convention. -/
def secCtxOuterValidate (_ep _enr _err _ehn : Bool) (r : Json) :
    ValidationResult :=
  ⟨false, some (attrErr (pyTypeName r) "request"), none⟩

/-- Per-container loop of `ImagePolicyValidator._validate`
(src/src/validators/image_policy.py lines 21-42). -/
def imgLoop (regs : List String) (deny : Bool) :
    List Json → Except String ValidationResult
  | [] => .ok ⟨true, some "Image policy validation passed", none⟩
  | c :: rest => do
    let image ← pyGetD c "image" (.str "")
    if !truthy image then
      return ⟨false,
        some ("Container " ++ pyStr (nameOf c) ++ " has no image specified"),
        none⟩
    -- registry = image.split("/")[0] if "/" in image else "docker.io"
    let hasSlash ← pyContains image "/"
    let registry ←
      if hasSlash then
        match image with
        | .str s => pure (beforeFirstSlash s)
        | other => Except.error (attrErr (pyTypeName other) "split")
      else pure "docker.io"
    if !regs.contains registry then
      return ⟨false,
        some ("Registry " ++ registry ++ " is not allowed. Allowed registries: "
          ++ String.intercalate ", " regs), none⟩
    let latestHit ←
      if deny then do
        let a ← pyContains image ":latest"
        if a then pure true
        else do
          let b ← pyContains image ":"
          pure (!b)
      else pure false
    if latestHit then
      return ⟨false,
        some ("Latest tag is not allowed for image " ++ pyStr image), none⟩
    imgLoop regs deny rest

/-- Try-block of `ImagePolicyValidator._validate`. -/
def imgBody (regs : List String) (deny : Bool) (request : Json) :
    Except String ValidationResult := do
  let pod ← pyGetD request "object" (.obj [])
  let bad ← notOrMissing pod "spec"
  if bad then return ⟨false, some "Invalid pod specification", none⟩
  let spec ← pyGetD pod "spec" (.obj [])
  let containers ← pyGetD spec "containers" (.arr [])
  let elems ← pyIterate containers
  imgLoop regs deny elems

/-- `ImagePolicyValidator._validate` with its catch-all except clause. -/
def imgValidate (regs : List String) (deny : Bool) (request : Json) :
    ValidationResult :=
  match imgBody regs deny request with
  | .ok r => r
  | .error e => ⟨false, some ("Image policy validation error: " ++ e), none⟩

/-- Per-container loop of `ResourceRequirementsValidator._validate`
(src/src/validators/resource_requirements.py lines 31-70). -/
def resLoop (enforce : Bool) : List Json → Except String ValidationResult
  | [] => .ok ⟨true, some "Resource requirements validation passed", none⟩
  | c :: rest => do
    let resources ← pyGetD c "resources" (.obj [])
    if !truthy resources && enforce then
      return ⟨false,
        some ("Container " ++ pyStr (nameOf c) ++
          " must specify resource requirements"), none⟩
    let limits ← pyGetD resources "limits" (.obj [])
    let requests ← pyGetD resources "requests" (.obj [])
    if enforce then
      let cpuL ← pyContains limits "cpu"
      if !cpuL then
        return ⟨false,
          some ("Container " ++ pyStr (nameOf c) ++
            " must specify CPU limits"), none⟩
      let memL ← pyContains limits "memory"
      if !memL then
        return ⟨false,
          some ("Container " ++ pyStr (nameOf c) ++
            " must specify memory limits"), none⟩
      let cpuR ← pyContains requests "cpu"
      if !cpuR then
        return ⟨false,
          some ("Container " ++ pyStr (nameOf c) ++
            " must specify CPU requests"), none⟩
      let memR ← pyContains requests "memory"
      if !memR then
        return ⟨false,
          some ("Container " ++ pyStr (nameOf c) ++
            " must specify memory requests"), none⟩
      resLoop enforce rest
    else
      resLoop enforce rest

/-- Try-block of `ResourceRequirementsValidator._validate`. -/
def resBody (enforce : Bool) (request : Json) :
    Except String ValidationResult := do
  let pod ← pyGetD request "object" (.obj [])
  let bad ← notOrMissing pod "spec"
  if bad then return ⟨false, some "Invalid pod specification", none⟩
  let spec ← pyGetD pod "spec" (.obj [])
  let containers ← pyGetD spec "containers" (.arr [])
  let elems ← pyIterate containers
  resLoop enforce elems

/-- `ResourceRequirementsValidator._validate` with its except clause. -/
def resValidate (enforce : Bool) (request : Json) : ValidationResult :=
  match resBody enforce request with
  | .ok r => r
  | .error e =>
      ⟨false, some ("Resource requirements validation error: " ++ e), none⟩

/-- A validator as seen by `ValidatorChain`: its `supports` and `validate`
methods. -/
structure Validator where
  supports : Json → Bool
  validate : Json → ValidationResult

/-- Loop of `ValidatorChain.validate` (src/src/validators/base.py lines
67-80), with `ws` the `warnings` accumulator. -/
def chainGo : List Validator → Json → List String → ValidationResult
  | [], _, ws => ⟨true, none, if ws.isEmpty then none else some ws⟩
  | v :: rest, r, ws =>
    if !v.supports r then chainGo rest r ws
    else
      let res := v.validate r
      if !res.allowed then res
      else chainGo rest r (ws ++ res.warnings.getD [])

/-- `ValidatorChain.validate`. -/
def chainValidate (vs : List Validator) (r : Json) : ValidationResult :=
  chainGo vs r []

/-- `SecurityContextValidator` as an element of a chain (supports plus the
overridden `validate`). -/
def secCtxValidator (ep enr err ehn : Bool) : Validator :=
  ⟨supportsKind, secCtxOuterValidate ep enr err ehn⟩

/-- `ImagePolicyValidator` (src/src/validators/image_policy.py) as an
element of a chain: it inherits `BaseValidator.validate`. -/
def imgPolicyValidator (regs : List String) (deny : Bool) : Validator :=
  ⟨supportsKind, baseValidate supportsKind (imgValidate regs deny)⟩

/-- `ResourceRequirementsValidator` as an element of a chain: it inherits
`BaseValidator.validate`. -/
def resReqValidator (enforce : Bool) : Validator :=
  ⟨supportsKind, baseValidate supportsKind (resValidate enforce)⟩

/-- src/src/mutators/base.py `MutationResult`. `patched` is
`Optional[Dict[str, Any]]`; a successful mutator fills it with the (whole)
request object. -/
structure MutationResult where
  mutated : Bool
  patched : Option Json := none
  message : Option String := none
deriving DecidableEq, Repr

/-- Text of the TypeError raised by `value[k]` subscripting on a
non-subscriptable value. -/
def subscriptErr (ty : String) : String :=
  "'" ++ ty ++ "' object is not subscriptable"

/-- One `metadata.get(key, {}); .update(cfg); metadata[key] = ...` step of
`DefaultLabelsAnnotationsMutator.mutate`, skipped when the config dict is
empty (falsy). An exception occurs before any in-place edit. -/
def mergeOne (meta0 : Json) (key : String) (cfg : List (String × String)) :
    Except String Json :=
  if cfg.isEmpty then .ok meta0
  else do
    let cur ← pyGetD meta0 key (.obj [])
    let upd ← pyUpdate cur cfg
    pure (setObj meta0 key upd)

/-- Labels step then annotations step on one metadata dict; on an
exception the value of the metadata as already edited in place is
returned alongside the message. -/
def mergeBlock (meta0 : Json) (dl da : List (String × String)) :
    Except (String × Json) Json :=
  match mergeOne meta0 "labels" dl with
  | .error e => .error (e, meta0)
  | .ok meta1 =>
    match mergeOne meta1 "annotations" da with
    | .error e => .error (e, meta1)
    | .ok meta2 => .ok meta2

/-- Reflect an in-place edit of the local `template_metadata` variable back
into the root object: in Python the edit is visible in the object exactly
when `spec`, `spec.template` are dicts present in the object and
`template` has a `metadata` entry (otherwise the local was a fresh dict). -/
def writeTemplateMeta (obj : JDict) (tm : Json) : JDict :=
  match getK obj "spec" with
  | some (Json.obj spec) =>
    match getK spec "template" with
    | some (Json.obj tmpl) =>
      if containsK tmpl "metadata" then
        setK obj "spec"
          (.obj (setK spec "template" (.obj (setK tmpl "metadata" tm))))
      else obj
    | _ => obj
  | _ => obj

/-- `DefaultLabelsAnnotationsMutator.mutate` (src/src/mutators/defaults.py
lines 13-57) on a request of the given kind whose object is `obj0`; the
second component is the state of the request's object after the call (the
mutator edits it in place). -/
def mutLabels (dl da : List (String × String)) (kind : String)
    (obj0 : JDict) : MutationResult × JDict :=
  if !(kind = "Pod" || kind = "Deployment") then (⟨false, none, none⟩, obj0)
  else
    -- metadata = obj.get("metadata", {}), then the two merge steps
    match mergeBlock (getD obj0 "metadata" (.obj [])) dl da with
    | .error (e, metaPartial) =>
        -- in-place edits are visible iff the object had a `metadata` entry
        (⟨false, none, some e⟩,
         if containsK obj0 "metadata" then setK obj0 "metadata" metaPartial
         else obj0)
    | .ok meta1 =>
      -- obj["metadata"] = metadata, unconditionally
      if kind = "Pod" then
        (⟨true, some (.obj (setK obj0 "metadata" meta1)), none⟩,
         setK obj0 "metadata" meta1)
      else
        -- template = obj.get("spec", {}).get("template", {})
        match pyGetD (getD (setK obj0 "metadata" meta1) "spec" (.obj []))
            "template" (.obj []) with
        | .error e => (⟨false, none, some e⟩, setK obj0 "metadata" meta1)
        | .ok tmpl0 =>
          match pyGetD tmpl0 "metadata" (.obj []) with
          | .error e => (⟨false, none, some e⟩, setK obj0 "metadata" meta1)
          | .ok tm0 =>
            match mergeBlock tm0 dl da with
            | .error (e, tmPartial) =>
                (⟨false, none, some e⟩,
                 writeTemplateMeta (setK obj0 "metadata" meta1) tmPartial)
            | .ok tm1 =>
              -- template["metadata"] = ..., then obj["spec"]["template"] = template
              match getK (setK obj0 "metadata" meta1) "spec" with
              | some (Json.obj spec) =>
                  (⟨true, some (.obj (setK (setK obj0 "metadata" meta1) "spec"
                      (.obj (setK spec "template" (setObj tmpl0 "metadata" tm1))))),
                    none⟩,
                   setK (setK obj0 "metadata" meta1) "spec"
                     (.obj (setK spec "template" (setObj tmpl0 "metadata" tm1))))
              | some other =>
                  -- unreachable: a non-dict `spec` already failed the
                  -- `template` lookup above
                  (⟨false, none, some (subscriptErr (pyTypeName other))⟩,
                   setK obj0 "metadata" meta1)
              | none =>
                  (⟨false, none, some "'spec'"⟩, setK obj0 "metadata" meta1)

/-- `DefaultSecurityContextMutator.get_default_pod_security_context`. -/
def podSecCtx (rnr : Bool) (ru rg fsg : Option Int) : Json :=
  .obj ([("runAsNonRoot", Json.bool rnr)]
    ++ (match ru with | some u => [("runAsUser", Json.num u)] | none => [])
    ++ (match rg with | some g => [("runAsGroup", Json.num g)] | none => [])
    ++ (match fsg with | some f => [("fsGroup", Json.num f)] | none => []))

/-- `DefaultSecurityContextMutator.get_default_container_security_context`. -/
def containerSecCtx (rnr ror : Bool) (ru rg : Option Int) : Json :=
  .obj ([("runAsNonRoot", Json.bool rnr),
      ("readOnlyRootFilesystem", Json.bool ror),
      ("allowPrivilegeEscalation", Json.bool false)]
    ++ (match ru with | some u => [("runAsUser", Json.num u)] | none => [])
    ++ (match rg with | some g => [("runAsGroup", Json.num g)] | none => []))

/-- `for container in containers: container["securityContext"] = ctx` over
the elements of a list; on a TypeError the list as edited so far is
returned (earlier elements were already mutated in place). -/
def setCtrLoop (ctx : Json) : List Json → Except (String × List Json) (List Json)
  | [] => .ok []
  | c :: rest =>
    match c with
    | .obj m =>
      let c' := Json.obj (setK m "securityContext" ctx)
      match setCtrLoop ctx rest with
      | .ok rest' => .ok (c' :: rest')
      | .error (e, restPart) => .error (e, c' :: restPart)
    | other => .error (itemAssignErr (pyTypeName other), c :: rest)

/-- The container loop of `DefaultSecurityContextMutator.mutate` over a
`containers` value of any shape (dict iterates keys, string iterates
characters; neither supports item assignment, so they fail on their first
element and are never edited). -/
def applyCtrLoop (ctx : Json) (containers : Json) : Except (String × Json) Json :=
  match containers with
  | .arr xs =>
    match setCtrLoop ctx xs with
    | .ok xs' => .ok (.arr xs')
    | .error (e, part) => .error (e, .arr part)
  | .obj [] => .ok (.obj [])
  | .obj m => .error (itemAssignErr "str", .obj m)
  | .str "" => .ok (.str "")
  | .str s => .error (itemAssignErr "str", .str s)
  | other => .error (iterErr (pyTypeName other), other)

/-- Body of `DefaultSecurityContextMutator.mutate` acting on the located
pod spec: set the pod-level securityContext, then every container's; on an
exception the pod spec as edited so far accompanies the message. -/
def secCtxApplySpec (podCtx ctrCtx : Json) (spec0 : Json) :
    Except (String × Json) Json :=
  match spec0 with
  | .obj m =>
    let spec1 := setK m "securityContext" podCtx
    let containers := getD spec1 "containers" (.arr [])
    match applyCtrLoop ctrCtx containers with
    | .ok containers' =>
        .ok (.obj (if containsK spec1 "containers" then
          setK spec1 "containers" containers' else spec1))
    | .error (e, part) =>
        .error (e, .obj (if containsK spec1 "containers" then
          setK spec1 "containers" part else spec1))
  | other => .error (itemAssignErr (pyTypeName other), other)

/-- Reflect an in-place edit of the local `pod_spec` variable back into the
root object (visible exactly when the locating path existed, i.e. the
local aliased the object's own nested dict). -/
def writePodSpec (kind : String) (obj0 : JDict) (spec' : Json) : JDict :=
  if kind = "Pod" then
    if containsK obj0 "spec" then setK obj0 "spec" spec' else obj0
  else
    match getK obj0 "spec" with
    | some (Json.obj spec) =>
      match getK spec "template" with
      | some (Json.obj tmpl) =>
        if containsK tmpl "spec" then
          setK obj0 "spec" (.obj (setK spec "template" (.obj (setK tmpl "spec" spec'))))
        else obj0
      | _ => obj0
    | _ => obj0

/-- `pod_spec = obj.get("spec", {})`, then for Deployments
`pod_spec = pod_spec.get("template", {}).get("spec", {})`. -/
def locatePodSpec (kind : String) (obj0 : JDict) : Except String Json :=
  let specTop := getD obj0 "spec" (.obj [])
  if kind = "Deployment" then do
    let tmpl ← pyGetD specTop "template" (.obj [])
    pyGetD tmpl "spec" (.obj [])
  else pure specTop

/-- The final `obj["spec"] = pod_spec` (Pod) or
`obj["spec"]["template"]["spec"] = pod_spec` (Deployment) write of the
security-context and resources mutators, with its KeyErrors. -/
def storePodSpec (kind : String) (obj0 : JDict) (spec' : Json) :
    Except String JDict :=
  if kind = "Pod" then .ok (setK obj0 "spec" spec')
  else
    match getK obj0 "spec" with
    | none => .error "'spec'"
    | some (Json.obj spec) =>
      match getK spec "template" with
      | none => .error "'template'"
      | some (Json.obj tmpl) =>
          .ok (setK obj0 "spec" (.obj (setK spec "template" (.obj (setK tmpl "spec" spec')))))
      | some other =>
          -- unreachable: a non-dict template already failed `.get("spec")`
          .error (itemAssignErr (pyTypeName other))
    | some other =>
        -- unreachable: a non-dict spec already failed `.get("template")`
        .error (subscriptErr (pyTypeName other))

/-- `DefaultSecurityContextMutator.mutate` (src/src/mutators/defaults.py
lines 106-134); the second component is the state of the request's object
after the call. -/
def mutSecCtx (rnr ror : Bool) (ru rg fsg : Option Int) (kind : String)
    (obj0 : JDict) : MutationResult × JDict :=
  if !(kind = "Pod" || kind = "Deployment") then (⟨false, none, none⟩, obj0)
  else
    match locatePodSpec kind obj0 with
    | .error e => (⟨false, none, some e⟩, obj0)
    | .ok podSpec0 =>
      match secCtxApplySpec (podSecCtx rnr ru rg fsg)
          (containerSecCtx rnr ror ru rg) podSpec0 with
      | .error (e, specPart) => (⟨false, none, some e⟩, writePodSpec kind obj0 specPart)
      | .ok spec' =>
        match storePodSpec kind obj0 spec' with
        | .ok obj1 => (⟨true, some (.obj obj1), none⟩, obj1)
        | .error e => (⟨false, none, some e⟩, writePodSpec kind obj0 spec')

/-- `DefaultResourcesMutator.get_default_resources`. -/
def defaultResources (dreq dlim : List (String × String)) : Json :=
  .obj ((if dreq.isEmpty then []
      else [("requests", Json.obj (dreq.map (fun kv => (kv.1, Json.str kv.2))))])
    ++ (if dlim.isEmpty then []
      else [("limits", Json.obj (dlim.map (fun kv => (kv.1, Json.str kv.2))))]))

/-- `for container in containers: if "resources" not in container:
container["resources"] = defaults` over list elements, tracking the list
as edited so far for the exception case. -/
def resCtrLoop (defs : Json) : List Json → Except (String × List Json) (List Json)
  | [] => .ok []
  | c :: rest =>
    match pyContains c "resources" with
    | .error e => .error (e, c :: rest)
    | .ok hasRes =>
      match (if !hasRes then
          match c with
          | .obj m => Except.ok (Json.obj (setK m "resources" defs))
          | other => Except.error (itemAssignErr (pyTypeName other))
        else Except.ok c) with
      | .error e => .error (e, c :: rest)
      | .ok c' =>
        match resCtrLoop defs rest with
        | .ok rest' => .ok (c' :: rest')
        | .error (e, restPart) => .error (e, c' :: restPart)

/-- The container loop of `DefaultResourcesMutator.mutate` over a
`containers` value of any shape; iterating a dict or string yields string
elements which are never edited in place. -/
def applyResLoop (defs : Json) (containers : Json) : Except (String × Json) Json :=
  match containers with
  | .arr xs =>
    match resCtrLoop defs xs with
    | .ok xs' => .ok (.arr xs')
    | .error (e, part) => .error (e, .arr part)
  | .obj m =>
    match resCtrLoop defs (m.map (fun kv => Json.str kv.1)) with
    | .ok _ => .ok (.obj m)
    | .error (e, _) => .error (e, .obj m)
  | .str s =>
    match resCtrLoop defs (s.toList.map (fun ch => Json.str (String.singleton ch))) with
    | .ok _ => .ok (.str s)
    | .error (e, _) => .error (e, .str s)
  | other => .error (iterErr (pyTypeName other), other)

/-- Body of `DefaultResourcesMutator.mutate` acting on the located pod
spec (`containers = pod_spec.get("containers", [])` then the loop). -/
def resApplySpec (defs : Json) (spec0 : Json) : Except (String × Json) Json :=
  match spec0 with
  | .obj m =>
    let containers := getD m "containers" (.arr [])
    match applyResLoop defs containers with
    | .ok containers' =>
        .ok (.obj (if containsK m "containers" then
          setK m "containers" containers' else m))
    | .error (e, part) =>
        .error (e, .obj (if containsK m "containers" then
          setK m "containers" part else m))
  | other => .error (attrErr (pyTypeName other) "get", other)

/-- `DefaultResourcesMutator.mutate` (src/src/mutators/defaults.py lines
156-182); the second component is the state of the request's object after
the call. -/
def mutResources (dreq dlim : List (String × String)) (kind : String)
    (obj0 : JDict) : MutationResult × JDict :=
  if !(kind = "Pod" || kind = "Deployment") then (⟨false, none, none⟩, obj0)
  else
    match locatePodSpec kind obj0 with
    | .error e => (⟨false, none, some e⟩, obj0)
    | .ok podSpec0 =>
      match resApplySpec (defaultResources dreq dlim) podSpec0 with
      | .error (e, specPart) => (⟨false, none, some e⟩, writePodSpec kind obj0 specPart)
      | .ok spec' =>
        match storePodSpec kind obj0 spec' with
        | .ok obj1 => (⟨true, some (.obj obj1), none⟩, obj1)
        | .error e => (⟨false, none, some e⟩, writePodSpec kind obj0 spec')

/-- A mutator as seen by `MutatorChain`: `supports` (which
`BaseMutator` defines as constantly True and no repository mutator
overrides) and `mutate`, acting on the request's kind and its object and
returning the object's post-call state alongside the result. -/
structure Mutator where
  supports : String → JDict → Bool
  mutate : String → JDict → MutationResult × JDict

/-- Message of the pydantic `ValidationError` raised by
`MutationResult(mutated=True, patched=all_patches)` at the end of
`MutatorChain.mutate` when `all_patches` is a non-empty list: the
`patched` field is typed `Optional[Dict[str, Any]]` and rejects a list. -/
def pydanticPatchedErr : String :=
  "1 validation error for MutationResult: patched: Input should be a valid dictionary"

/-- Loop of `MutatorChain.mutate` (src/src/mutators/base.py lines 77-90).
`patches` is `all_patches`; the final construction raises (is an
`Except.error`) when it is non-empty. The request's object is threaded
through because mutators edit it in place. -/
def mutChainGo : List Mutator → String → JDict → List Json →
    Except String MutationResult × JDict
  | [], _, obj, patches =>
      if patches.isEmpty then (.ok ⟨true, none, none⟩, obj)
      else (.error pydanticPatchedErr, obj)
  | m :: rest, kind, obj, patches =>
    if !m.supports kind obj then mutChainGo rest kind obj patches
    else
      let (res, obj') := m.mutate kind obj
      if !res.mutated then (.ok res, obj')
      else
        let patches' := patches ++ (match res.patched with
          | some p => if truthy p then [p] else []
          | none => [])
        mutChainGo rest kind obj' patches'

/-- `MutatorChain.mutate` on a request of the given kind whose object is
`obj`; returns the result (or the uncaught exception) and the state of
the caller's object after the call. -/
def mutChain (ms : List Mutator) (kind : String) (obj : JDict) :
    Except String MutationResult × JDict :=
  mutChainGo ms kind obj []

/-- `DefaultLabelsAnnotationsMutator` as a chain element. -/
def labelsMutator (dl da : List (String × String)) : Mutator :=
  ⟨fun _ _ => true, mutLabels dl da⟩

/-- `DefaultSecurityContextMutator` as a chain element. -/
def secCtxMutator (rnr ror : Bool) (ru rg fsg : Option Int) : Mutator :=
  ⟨fun _ _ => true, mutSecCtx rnr ror ru rg fsg⟩

/-- `DefaultResourcesMutator` as a chain element. -/
def resourcesMutator (dreq dlim : List (String × String)) : Mutator :=
  ⟨fun _ _ => true, mutResources dreq dlim⟩

/-! Claim-side transcriptions (used only to compare the code's behavior
with the spec's wording) and concrete fixtures. -/

/-- Warnings of the validators the chain evaluates, in evaluation order;
used to state the all-pass case of the chain. -/
def collectWarnings : List Validator → Json → List String
  | [], _ => []
  | v :: rest, r =>
      (if v.supports r then (v.validate r).warnings.getD [] else [])
        ++ collectWarnings rest r

/-- Transcribed from the spec's wording for SecurityContextRule (C8): the
first failure message of one container's ordered checks — privileged,
then runAsUser == 0, then readOnlyRootFilesystem not true — where a
container with no securityContext is treated as having all fields unset. -/
def claimSecCtrMsg (ep enr err : Bool) (c : JDict) : Option String :=
  let scm : JDict :=
    match getK c "securityContext" with
    | some (Json.obj m) => m
    | _ => []
  if ep && truthy (getD scm "privileged" (.bool false)) then
    some "Privileged containers are not allowed"
  else if enr && (decide (getD scm "runAsUser" .null ≠ .null) &&
      (decide (getD scm "runAsUser" .null = .num 0) ||
       decide (getD scm "runAsUser" .null = .bool false))) then
    some "Running as root is not allowed"
  else if err && !truthy (getD scm "readOnlyRootFilesystem" (.bool false)) then
    some "Root filesystem must be read-only"
  else none

/-- Transcribed from the spec's wording for SecurityContextRule (C8): scan
containers in declaration order and stop at the first violation. -/
def claimSecScan (ep enr err : Bool) : List JDict → ValidationResult
  | [] => ⟨true, some "Security context validation passed", none⟩
  | c :: rest =>
    match claimSecCtrMsg ep enr err c with
    | some msg => ⟨false, some msg, none⟩
    | none => claimSecScan ep enr err rest

/-- Transcribed from the spec's wording for SecurityContextRule (C8): the
hostNetwork check precedes the container scan. -/
def claimSecEval (ep enr err ehn : Bool) (hostNetwork : Json)
    (containers : List JDict) : ValidationResult :=
  if ehn && truthy hostNetwork then
    ⟨false, some "Host network access is not allowed", none⟩
  else claimSecScan ep enr err containers

/-- Transcribed from the amended wording for ImagePolicyRule (C9): one
container's ordered checks — empty image, registry membership, and (when
denyLatestTag) the code's substring test `":latest" in image or ":" not
in image`. -/
def claimImgCtrMsg (regs : List String) (deny : Bool) (c : JDict) :
    Option String :=
  match getD c "image" (.str "") with
  | .str s =>
    if s = "" then
      some ("Container " ++ pyStr (getD c "name" .null) ++ " has no image specified")
    else
      let registry := if hasSubstr s "/" then beforeFirstSlash s
        else "docker.io"
      if !regs.contains registry then
        some ("Registry " ++ registry ++ " is not allowed. Allowed registries: "
          ++ String.intercalate ", " regs)
      else if deny && (hasSubstr s ":latest" || !hasSubstr s ":") then
        some ("Latest tag is not allowed for image " ++ s)
      else none
  | _ => none

/-- Transcribed from the spec's wording for ImagePolicyRule (C9): scan
containers in declaration order and stop at the first violation. -/
def claimImgScan (regs : List String) (deny : Bool) : List JDict → ValidationResult
  | [] => ⟨true, some "Image policy validation passed", none⟩
  | c :: rest =>
    match claimImgCtrMsg regs deny c with
    | some msg => ⟨false, some msg, none⟩
    | none => claimImgScan regs deny rest

/-- A Pod admission envelope whose `request` has no `object` field. -/
def podEnvNoObject : Json :=
  .obj [("request", .obj [("kind", .obj [("kind", .str "Pod")])])]

/-- A well-formed Pod admission envelope whose pod spec complies with
every security rule. -/
def compliantPodEnv : Json :=
  .obj [("request", .obj [("kind", .obj [("kind", .str "Pod")]),
    ("object", .obj [("metadata", .obj []),
      ("spec", .obj [("containers", .arr [.obj [("name", .str "web"),
        ("securityContext", .obj [("privileged", .bool false),
          ("runAsUser", .num 1000),
          ("readOnlyRootFilesystem", .bool true)])]])])])])]

/-- A Pod admission envelope whose single container uses a latest tag. -/
def latestTagEnv : Json :=
  .obj [("request", .obj [("kind", .obj [("kind", .str "Pod")]),
    ("object", .obj [("spec", .obj [("containers",
      .arr [.obj [("name", .str "a"), ("image", .str "nginx:latest")]])])])])]

/-- A Pod admission envelope whose single container passes the image
policy (allowed registry, explicit non-latest tag). -/
def imgPassEnv : Json :=
  .obj [("request", .obj [("kind", .obj [("kind", .str "Pod")]),
    ("object", .obj [("spec", .obj [("containers",
      .arr [.obj [("name", .str "web"), ("image", .str "docker.io/app:v1")]])])])])]

/-- An inner admission request whose container image carries the tag
`latest2`, i.e. a tag other than `latest` that contains `:latest` as a
substring. -/
def latestSubstrReq : Json :=
  .obj [("object", .obj [("spec", .obj [("containers",
    .arr [.obj [("name", .str "web"),
      ("image", .str "docker.io/app:latest2")]])])])]

/-- An inner admission request with two containers that both violate the
image policy (disallowed registries). -/
def twoViolationsReq : Json :=
  .obj [("object", .obj [("spec", .obj [("containers", .arr [
    .obj [("name", .str "first"), ("image", .str "gcr.io/app:v1")],
    .obj [("name", .str "second"), ("image", .str "quay.io/app:v1")]])])])]

/-- An inner admission request whose single container has no
securityContext at all. -/
def noSecCtxReq : Json :=
  .obj [("object", .obj [("spec", .obj [("containers",
    .arr [.obj [("name", .str "web")]])])])]

/-- The mutator chain as configured in src/src/app/main.py, with concrete
defaults. -/
def defaultMutChain : List Mutator :=
  [labelsMutator [("app", "x")] [],
   secCtxMutator true true (some 1000) (some 2000) (some 3000),
   resourcesMutator [("cpu", "100m")] [("cpu", "1")]]

/-- A Pod object that already carries every default configured in
`defaultMutChain`: the label, the pod and container security contexts
exactly equal to the defaults, and a resources entry on the container. -/
def compliantPodObj : JDict :=
  [("metadata", .obj [("labels", .obj [("app", .str "x")])]),
   ("spec", .obj [
      ("containers", .arr [.obj [
         ("name", .str "c"),
         ("securityContext", .obj [
            ("runAsNonRoot", .bool true), ("readOnlyRootFilesystem", .bool true),
            ("allowPrivilegeEscalation", .bool false),
            ("runAsUser", .num 1000), ("runAsGroup", .num 2000)]),
         ("resources", .obj [
            ("requests", .obj [("cpu", .str "100m")]),
            ("limits", .obj [("cpu", .str "1")])])]]),
      ("securityContext", .obj [
         ("runAsNonRoot", .bool true), ("runAsUser", .num 1000),
         ("runAsGroup", .num 2000), ("fsGroup", .num 3000)])])]

/-- A bare Pod object (one container, no metadata) that every default
mutator would edit. -/
def basePodObj : JDict :=
  [("spec", .obj [("containers", .arr [.obj [("name", .str "c")]])])]

/-- Shape guard for C8: the container's securityContext entry, when
present, is a dict (the only shape the claim speaks about; other shapes
make the rule raise instead). -/
def scShaped (c : JDict) : Bool :=
  match getK c "securityContext" with
  | some (Json.obj _) => true
  | none => true
  | some _ => false

/-- Shape guard for C9: the container's image entry, when present, is a
string (the only shape the claim speaks about). -/
def imgShaped (c : JDict) : Bool :=
  match getD c "image" (.str "") with
  | .str _ => true
  | _ => false

/-! Helper lemmas. -/

theorem containsK_of_getK {m : JDict} {k : String} {v : Json}
    (h : getK m k = some v) : containsK m k = true := by
  simp [containsK, h]

theorem getD_of_getK {m : JDict} {k : String} {v : Json} (d : Json)
    (h : getK m k = some v) : getD m k d = v := by
  simp [getD, h]

theorem ne_nil_of_getK {m : JDict} {k : String} {v : Json}
    (h : getK m k = some v) : m ≠ [] := by
  intro he
  subst he
  simp [getK] at h

theorem truthy_obj_of_getK {m : JDict} {k : String} {v : Json}
    (h : getK m k = some v) : truthy (.obj m) = true := by
  have := ne_nil_of_getK h
  simp [truthy, List.isEmpty_iff, this]

/-- Skipping: a validator whose `supports` is false leaves the loop state
unchanged. -/
theorem chainGo_skip (v : Validator) (vs : List Validator) (r : Json)
    (ws : List String) (h : v.supports r = false) :
    chainGo (v :: vs) r ws = chainGo vs r ws := by
  simp [chainGo, h]

/-- All-pass: when every supported validator allows, the loop returns
allowed with the accumulated warnings. -/
theorem chainGo_all_pass (r : Json) :
    ∀ (vs : List Validator) (ws : List String),
      (∀ u ∈ vs, u.supports r = true → (u.validate r).allowed = true) →
      chainGo vs r ws =
        ⟨true, none, if (ws ++ collectWarnings vs r).isEmpty then none
          else some (ws ++ collectWarnings vs r)⟩
  | [], ws, _ => by simp [chainGo, collectWarnings]
  | v :: vs, ws, h => by
      cases hs : v.supports r with
      | false =>
          rw [chainGo_skip v vs r ws hs]
          rw [chainGo_all_pass r vs ws (fun u hu => h u (List.mem_cons_of_mem v hu))]
          simp [collectWarnings, hs]
      | true =>
          have ha := h v (List.mem_cons_self v vs) hs
          rw [chainGo]
          simp only [hs, Bool.not_true, Bool.false_eq_true, if_false, ha,
            Bool.not_false, if_true]
          rw [chainGo_all_pass r vs _ (fun u hu => h u (List.mem_cons_of_mem v hu))]
          simp [collectWarnings, hs, List.append_assoc]

/-- Short-circuit: the first supported, disallowing validator's own result
is returned, whatever follows it and whatever warnings were accumulated. -/
theorem chainGo_first_fail (r : Json) (v : Validator)
    (hs : v.supports r = true) (hf : (v.validate r).allowed = false) :
    ∀ (pre : List Validator) (vs : List Validator) (ws : List String),
      (∀ u ∈ pre, u.supports r = true → (u.validate r).allowed = true) →
      chainGo (pre ++ v :: vs) r ws = v.validate r
  | [], vs, ws, _ => by
      rw [List.nil_append, chainGo]
      simp [hs, hf]
  | u :: pre, vs, ws, h => by
      cases hu : u.supports r with
      | false =>
          rw [List.cons_append, chainGo_skip u _ r ws hu]
          exact chainGo_first_fail r v hs hf pre vs ws
            (fun w hw => h w (List.mem_cons_of_mem u hw))
      | true =>
          have ha := h u (List.mem_cons_self u pre) hu
          rw [List.cons_append, chainGo]
          simp only [hu, Bool.not_true, Bool.false_eq_true, if_false, ha,
            Bool.not_false, if_true]
          exact chainGo_first_fail r v hs hf pre vs _
            (fun w hw => h w (List.mem_cons_of_mem u hw))

/-- A request envelope accepted by the shared kind-based `supports` check
is a dict. -/
theorem exists_obj_of_supportsKind {r : Json} (h : supportsKind r = true) :
    ∃ m : JDict, r = .obj m := by
  cases r with
  | obj m => exact ⟨m, rfl⟩
  | null => simp [supportsKind, pyGetD, Bind.bind, Except.bind] at h
  | bool b => simp [supportsKind, pyGetD, Bind.bind, Except.bind] at h
  | num n => simp [supportsKind, pyGetD, Bind.bind, Except.bind] at h
  | str s => simp [supportsKind, pyGetD, Bind.bind, Except.bind] at h
  | arr xs => simp [supportsKind, pyGetD, Bind.bind, Except.bind] at h

/-- `BaseValidator.validate` on an empty envelope or one lacking
`request` fails closed with the format message. -/
theorem baseValidate_format (sup : Json → Bool)
    (vld : Json → ValidationResult) (m : JDict)
    (h : m = [] ∨ containsK m "request" = false) :
    baseValidate sup vld (.obj m) =
      ⟨false, some "Invalid admission request format", none⟩ := by
  rcases h with rfl | hc
  · simp [baseValidate, baseBody, notOrMissing, truthy, Bind.bind, Except.bind, Pure.pure, Except.pure, Functor.map, Except.map]
  · have hne : truthy (.obj m) = true ∨ truthy (.obj m) = false := by
      cases truthy (.obj m) <;> simp
    rcases hne with ht | ht
    · simp [baseValidate, baseBody, notOrMissing, ht, pyContains, hc, Bind.bind, Except.bind, Pure.pure, Except.pure, Functor.map, Except.map]
    · simp [baseValidate, baseBody, notOrMissing, ht, Bind.bind, Except.bind, Pure.pure, Except.pure, Functor.map, Except.map]

/-- `BaseValidator.validate` on an envelope whose `request` dict is empty
or lacks `object` fails closed with the missing-object message. -/
theorem baseValidate_missingObject (sup : Json → Bool)
    (vld : Json → ValidationResult) (m reqm : JDict)
    (hr : getK m "request" = some (.obj reqm))
    (h : reqm = [] ∨ containsK reqm "object" = false) :
    baseValidate sup vld (.obj m) =
      ⟨false, some "Missing request object", none⟩ := by
  have hmne : m ≠ [] := ne_nil_of_getK hr
  have hc := containsK_of_getK hr
  have hg : getD m "request" (.obj []) = .obj reqm := getD_of_getK _ hr
  rcases h with rfl | hco
  · simp [baseValidate, baseBody, notOrMissing, pyContains, hc, hg,
      pyGetD, truthy, List.isEmpty_iff, hmne, Bind.bind, Except.bind,
      Pure.pure, Except.pure, Functor.map, Except.map]
  · by_cases hre : reqm = []
    · subst hre
      simp [baseValidate, baseBody, notOrMissing, pyContains, hc, hg,
        pyGetD, truthy, List.isEmpty_iff, hmne, Bind.bind, Except.bind,
        Pure.pure, Except.pure, Functor.map, Except.map]
    · simp [baseValidate, baseBody, notOrMissing, pyContains, hc, hg,
        pyGetD, truthy, List.isEmpty_iff, hmne, hre, hco, Bind.bind, Except.bind,
        Pure.pure, Except.pure, Functor.map, Except.map]

/-! Claim theorems. -/

/-- C4: the ValidatorChain is strictly short-circuiting: for every ordered
list of validators and every request, a validator whose supports check is
false is skipped (the chain behaves as if it were absent); the first
supported validator returning allowed=false terminates evaluation and its
own result is returned, with no later validator evaluated and no warnings
collected past that point; if every supported validator allows, the chain
returns allowed=true with the warnings of all evaluated validators
accumulated in evaluation order, the field omitted when empty. -/
theorem c4_chain_short_circuit :
    (∀ (v : Validator) (vs : List Validator) (r : Json),
        v.supports r = false → chainValidate (v :: vs) r = chainValidate vs r)
  ∧ (∀ (pre : List Validator) (v : Validator) (vs : List Validator) (r : Json),
        (∀ u ∈ pre, u.supports r = true → (u.validate r).allowed = true) →
        v.supports r = true → (v.validate r).allowed = false →
        chainValidate (pre ++ v :: vs) r = v.validate r)
  ∧ (∀ (vs : List Validator) (r : Json),
        (∀ u ∈ vs, u.supports r = true → (u.validate r).allowed = true) →
        chainValidate vs r =
          ⟨true, none, if (collectWarnings vs r).isEmpty then none
            else some (collectWarnings vs r)⟩) := by
  refine ⟨?_, ?_, ?_⟩
  · intro v vs r h
    exact chainGo_skip v vs r [] h
  · intro pre v vs r h hs hf
    exact chainGo_first_fail r v hs hf pre vs [] h
  · intro vs r h
    have := chainGo_all_pass r vs [] h
    simpa [chainValidate] using this

/-- C4 witness: a concrete Pod request with a latest-tag image; the image
policy validator is supported and denies, so a chain with a further
resource validator behind it returns exactly the image validator's result;
and a validator unsupported on an empty envelope is skipped. -/
theorem c4_witness :
    (imgPolicyValidator ["docker.io"] true).supports latestTagEnv = true
  ∧ ((imgPolicyValidator ["docker.io"] true).validate latestTagEnv).allowed = false
  ∧ chainValidate [imgPolicyValidator ["docker.io"] true, resReqValidator true]
      latestTagEnv = (imgPolicyValidator ["docker.io"] true).validate latestTagEnv
  ∧ chainValidate [imgPolicyValidator ["docker.io"] true] (Json.obj []) =
      chainValidate [] (Json.obj []) :=
  ⟨by decide, by decide,
   c4_chain_short_circuit.2.1 [] (imgPolicyValidator ["docker.io"] true)
     [resReqValidator true] latestTagEnv (by simp) (by decide) (by decide),
   c4_chain_short_circuit.1 (imgPolicyValidator ["docker.io"] true) []
     (Json.obj []) (by decide)⟩

/-- C1 counterexample: on an entirely malformed envelope (no `request`
field) the chain of configured validators returns allowed=true — not
allowed=false with "Invalid admission request format" as the claim states
for every list of configured validators — because the validator's
kind-based supports check fails on the malformed envelope and the chain
skips it. -/
theorem c1_counterexample :
    chainValidate [imgPolicyValidator ["docker.io"] true] (Json.obj []) =
      ⟨true, none, none⟩ := by decide

/-- C1 amended: the fail-closed checks live in `BaseValidator.validate`:
invoked on an envelope that is empty or lacks `request` it returns
allowed=false with "Invalid admission request format", and on one whose
request dict is empty or lacks `object` it returns allowed=false with
"Missing request object". The chain, however, consults each validator's
supports check first: a chain of validators inheriting the base entry
point does return "Missing request object" for a Pod request without
`object`, but every validator whose supports is the kind-based check is
skipped on an entirely malformed envelope, and the chain then returns
allowed=true. -/
theorem c1_amended :
    (∀ (sup : Json → Bool) (vld : Json → ValidationResult) (m : JDict),
        (m = [] ∨ containsK m "request" = false) →
        baseValidate sup vld (.obj m) =
          ⟨false, some "Invalid admission request format", none⟩)
  ∧ (∀ (sup : Json → Bool) (vld : Json → ValidationResult) (m reqm : JDict),
        getK m "request" = some (.obj reqm) →
        (reqm = [] ∨ containsK reqm "object" = false) →
        baseValidate sup vld (.obj m) =
          ⟨false, some "Missing request object", none⟩)
  ∧ (∀ (regs : List String) (deny enf : Bool),
        chainValidate [imgPolicyValidator regs deny, resReqValidator enf]
          podEnvNoObject = ⟨false, some "Missing request object", none⟩)
  ∧ (∀ vs : List Validator, (∀ v ∈ vs, v.supports = supportsKind) →
        chainValidate vs (Json.obj []) = ⟨true, none, none⟩) := by
  refine ⟨baseValidate_format, baseValidate_missingObject, ?_, ?_⟩
  · intro regs deny enf
    have hsup : (imgPolicyValidator regs deny).supports podEnvNoObject = true := by
      show supportsKind podEnvNoObject = true
      decide
    have hv : (imgPolicyValidator regs deny).validate podEnvNoObject =
        ⟨false, some "Missing request object", none⟩ :=
      baseValidate_missingObject supportsKind (imgValidate regs deny)
        [("request", .obj [("kind", .obj [("kind", .str "Pod")])])]
        [("kind", .obj [("kind", .str "Pod")])] (by decide) (Or.inr (by decide))
    have hsc := chainGo_first_fail podEnvNoObject (imgPolicyValidator regs deny)
      hsup (by rw [hv]) [] [resReqValidator enf] [] (by simp)
    exact hsc.trans hv
  · intro vs h
    induction vs with
    | nil => rfl
    | cons v rest ih =>
        have hvs : v.supports (Json.obj []) = false := by
          rw [h v (List.mem_cons_self v rest)]; decide
        rw [chainValidate, chainGo_skip v rest _ [] hvs]
        exact ih (fun u hu => h u (List.mem_cons_of_mem v hu))

/-- C1 amended witness: each component applied at a concrete input. -/
theorem c1_amended_witness :
    baseValidate supportsKind (imgValidate [] false) (.obj []) =
      ⟨false, some "Invalid admission request format", none⟩
  ∧ baseValidate supportsKind (imgValidate [] false)
      (.obj [("request", .obj [("kind", .obj [("kind", .str "Pod")])])]) =
      ⟨false, some "Missing request object", none⟩
  ∧ chainValidate [imgPolicyValidator ["docker.io"] true, resReqValidator true]
      podEnvNoObject = ⟨false, some "Missing request object", none⟩
  ∧ chainValidate [imgPolicyValidator [] false] (Json.obj []) =
      ⟨true, none, none⟩ :=
  ⟨c1_amended.1 supportsKind (imgValidate [] false) [] (Or.inl rfl),
   c1_amended.2.1 supportsKind (imgValidate [] false) _
     [("kind", .obj [("kind", .str "Pod")])] (by decide) (Or.inr (by decide)),
   c1_amended.2.2.1 ["docker.io"] true true,
   c1_amended.2.2.2 [imgPolicyValidator [] false]
     (by intro v hv; simp at hv; subst hv; rfl)⟩

/-- C5: on every admission dict whose envelope passes the Pod/Deployment
kind check, the chain containing SecurityContextValidator denies with the
AttributeError text from its overridden validate accessing the attribute
`request` on its dict argument — whatever the pod spec contains and
whatever the enforcement flags are. -/
theorem c5_secctx_always_denies (ep enr err ehn : Bool) (r : Json)
    (h : supportsKind r = true) :
    chainValidate [secCtxValidator ep enr err ehn] r =
      ⟨false, some "'dict' object has no attribute 'request'", none⟩ := by
  obtain ⟨m, rfl⟩ := exists_obj_of_supportsKind h
  simp [chainValidate, chainGo, secCtxValidator, h, secCtxOuterValidate,
    attrErr, pyTypeName]

/-- C5 witness: the fully compliant Pod request is still denied with the
AttributeError text. -/
theorem c5_witness :
    supportsKind compliantPodEnv = true
  ∧ chainValidate [secCtxValidator true true true true] compliantPodEnv =
      ⟨false, some "'dict' object has no attribute 'request'", none⟩ :=
  ⟨by decide, c5_secctx_always_denies true true true true compliantPodEnv (by decide)⟩

/-- The labels mutator returns the post-call object itself as its patch
when it mutates (the `patched` field aliases the request object), and no
patch otherwise. -/
theorem mutLabels_patched_aliases (dl da : List (String × String))
    (kind : String) (obj0 : JDict) :
    (mutLabels dl da kind obj0).1.patched =
      (if (mutLabels dl da kind obj0).1.mutated = true
       then some (.obj (mutLabels dl da kind obj0).2) else none) := by
  unfold mutLabels
  repeat' split
  all_goals simp_all

/-- The security-context mutator returns the post-call object itself as
its patch when it mutates, and no patch otherwise. -/
theorem mutSecCtx_patched_aliases (rnr ror : Bool) (ru rg fsg : Option Int)
    (kind : String) (obj0 : JDict) :
    (mutSecCtx rnr ror ru rg fsg kind obj0).1.patched =
      (if (mutSecCtx rnr ror ru rg fsg kind obj0).1.mutated = true
       then some (.obj (mutSecCtx rnr ror ru rg fsg kind obj0).2) else none) := by
  unfold mutSecCtx
  repeat' split
  all_goals simp_all

/-- The resources mutator returns the post-call object itself as its
patch when it mutates, and no patch otherwise. -/
theorem mutResources_patched_aliases (dreq dlim : List (String × String))
    (kind : String) (obj0 : JDict) :
    (mutResources dreq dlim kind obj0).1.patched =
      (if (mutResources dreq dlim kind obj0).1.mutated = true
       then some (.obj (mutResources dreq dlim kind obj0).2) else none) := by
  unfold mutResources
  repeat' split
  all_goals simp_all

/-- C2 under the code: on a Pod request whose object already carries every
configured default, re-running the MutatorChain does not return
mutated=false: each mutator still reports mutated=true with the whole
object as its patch, and the chain's final
`MutationResult(mutated=True, patched=all_patches)` raises a pydantic
ValidationError (`all_patches` is a list, the field is typed
`Optional[Dict]`). The final working copy equals the pristine original
(second pair component), but the chain never compares them. -/
theorem c2_code_eval :
    mutChain defaultMutChain "Pod" compliantPodObj =
      (.error pydanticPatchedErr, compliantPodObj) := by decide

/-- C3 counterexample: a mutator that does not support the request's
resource kind is NOT skipped-and-continued: the chain consisting of just
the labels mutator on a Service request returns mutated=false (the
mutator's own unsupported-kind result), while the chain with that mutator
absent — which is what skipping would amount to — returns mutated=true;
so the chain aborts on an unsupported-kind result instead of continuing. -/
theorem c3_counterexample :
    mutChain [labelsMutator [("app", "x")] []] "Service" [] =
      (.ok ⟨false, none, none⟩, [])
  ∧ mutChain ([] : List Mutator) "Service" [] =
      (.ok ⟨true, none, none⟩, []) := by decide

/-- C3 amended: the MutatorChain visits its mutators in registration order
but aborts on ANY mutated=false result: the first such result — whether
an unsupported-kind skip (mutated=false with no message, object
unchanged, as each repository mutator returns for kinds other than Pod
and Deployment) or an error (mutated=false with the mutator's message) —
is returned immediately with no patch, and no later mutator runs. -/
theorem c3_amended :
    (∀ (m : Mutator) (ms : List Mutator) (kind : String) (obj : JDict)
        (res : MutationResult) (obj' : JDict),
        m.supports kind obj = true → m.mutate kind obj = (res, obj') →
        res.mutated = false → mutChain (m :: ms) kind obj = (.ok res, obj'))
  ∧ (∀ (dl da : List (String × String)) (kind : String) (obj : JDict),
        kind ≠ "Pod" → kind ≠ "Deployment" →
        mutLabels dl da kind obj = (⟨false, none, none⟩, obj))
  ∧ (∀ (rnr ror : Bool) (ru rg fsg : Option Int) (kind : String) (obj : JDict),
        kind ≠ "Pod" → kind ≠ "Deployment" →
        mutSecCtx rnr ror ru rg fsg kind obj = (⟨false, none, none⟩, obj))
  ∧ (∀ (dreq dlim : List (String × String)) (kind : String) (obj : JDict),
        kind ≠ "Pod" → kind ≠ "Deployment" →
        mutResources dreq dlim kind obj = (⟨false, none, none⟩, obj))
  ∧ mutChain [labelsMutator [("app", "x")] [],
        secCtxMutator true true none none none] "Deployment" [] =
      (.ok ⟨false, none, some "'spec'"⟩,
       [("metadata", .obj [("labels", .obj [("app", .str "x")])])]) := by
  refine ⟨?_, ?_, ?_, ?_, by decide⟩
  · intro m ms kind obj res obj' h1 h2 h3
    simp [mutChain, mutChainGo, h1, h2, h3]
  · intro dl da kind obj h1 h2
    simp [mutLabels, h1, h2]
  · intro rnr ror ru rg fsg kind obj h1 h2
    simp [mutSecCtx, h1, h2]
  · intro dreq dlim kind obj h1 h2
    simp [mutResources, h1, h2]

/-- C3 amended witness: the abort-on-skip behavior at a concrete Service
request, and each mutator's unsupported-kind result. -/
theorem c3_amended_witness :
    mutChain [labelsMutator [("a", "b")] []] "Service" [] =
      (.ok ⟨false, none, none⟩, ([] : JDict))
  ∧ mutLabels [("a", "b")] [] "Service" [] = (⟨false, none, none⟩, [])
  ∧ mutSecCtx true true none none none "Service" [] = (⟨false, none, none⟩, [])
  ∧ mutResources [] [] "Service" [] = (⟨false, none, none⟩, []) :=
  ⟨c3_amended.1 (labelsMutator [("a", "b")] []) [] "Service" []
     ⟨false, none, none⟩ [] rfl (by decide) rfl,
   c3_amended.2.1 [("a", "b")] [] "Service" [] (by decide) (by decide),
   c3_amended.2.2.1 true true none none none "Service" [] (by decide) (by decide),
   c3_amended.2.2.2.1 [] [] "Service" [] (by decide) (by decide)⟩

/-- C6 counterexample: running the MutatorChain does not leave the
caller's object unchanged. On a Pod request with an empty object and one
configured default label, the post-call object carries the label (the
chain edits the object in place), and on a Deployment request whose
labels mutator errors with KeyError `'spec'`, the edit made before the
error persists in the caller's object — it is NOT exactly as it was
before the chain ran. -/
theorem c6_counterexample :
    mutChain [labelsMutator [("team", "core")] []] "Pod" [] =
      (.error pydanticPatchedErr,
       [("metadata", .obj [("labels", .obj [("team", .str "core")])])])
  ∧ ([("metadata", Json.obj [("labels", .obj [("team", .str "core")])])] : JDict) ≠ []
  ∧ mutLabels [("team", "core")] [] "Deployment" [] =
      (⟨false, none, some "'spec'"⟩,
       [("metadata", .obj [("labels", .obj [("team", .str "core")])])]) := by
  decide

/-- C6 amended: mutation operates directly on the request's object, not
on a private structural copy: each mutator's successful result returns
the post-call object itself as the patched payload (not a distinct
value), the caller's object after the chain equals the final working
value, and when a mutator errors after earlier in-place edits those edits
persist in the caller's object. -/
theorem c6_amended :
    (∀ (dl da : List (String × String)) (kind : String) (obj0 : JDict),
        (mutLabels dl da kind obj0).1.patched =
          (if (mutLabels dl da kind obj0).1.mutated = true
           then some (.obj (mutLabels dl da kind obj0).2) else none))
  ∧ (∀ (rnr ror : Bool) (ru rg fsg : Option Int) (kind : String) (obj0 : JDict),
        (mutSecCtx rnr ror ru rg fsg kind obj0).1.patched =
          (if (mutSecCtx rnr ror ru rg fsg kind obj0).1.mutated = true
           then some (.obj (mutSecCtx rnr ror ru rg fsg kind obj0).2) else none))
  ∧ (∀ (dreq dlim : List (String × String)) (kind : String) (obj0 : JDict),
        (mutResources dreq dlim kind obj0).1.patched =
          (if (mutResources dreq dlim kind obj0).1.mutated = true
           then some (.obj (mutResources dreq dlim kind obj0).2) else none))
  ∧ (mutChain [labelsMutator [("team", "core")] []] "Pod" []).2 =
      [("metadata", .obj [("labels", .obj [("team", .str "core")])])]
  ∧ ((mutLabels [("team", "core")] [] "Deployment" []).1.mutated = false
      ∧ (mutLabels [("team", "core")] [] "Deployment" []).2 ≠ []) :=
  ⟨mutLabels_patched_aliases, mutSecCtx_patched_aliases,
   mutResources_patched_aliases, by decide, by decide⟩

/-- C7 under the code: no base64 JSON-Patch diff is produced for a
mutated request. Each mutator's `patched` payload is the entire request
object (a snapshot, not add/replace/remove operations); the chain appends
these snapshots into `all_patches` and its final result construction
raises the pydantic ValidationError, so the chain returns no patch at all
even though the object did change; `encode_patches` (the only base64
step) is never invoked by the chain, as its definition shows. -/
theorem c7_code_eval :
    (mutLabels [("app", "x")] [] "Pod" basePodObj).1.patched =
      some (.obj ((mutLabels [("app", "x")] [] "Pod" basePodObj).2))
  ∧ mutChain defaultMutChain "Pod" basePodObj =
      (.error pydanticPatchedErr,
       [("spec", .obj [
          ("containers", .arr [.obj [
             ("name", .str "c"),
             ("securityContext", .obj [
                ("runAsNonRoot", .bool true),
                ("readOnlyRootFilesystem", .bool true),
                ("allowPrivilegeEscalation", .bool false),
                ("runAsUser", .num 1000), ("runAsGroup", .num 2000)]),
             ("resources", .obj [
                ("requests", .obj [("cpu", .str "100m")]),
                ("limits", .obj [("cpu", .str "1")])])]]),
          ("securityContext", .obj [
             ("runAsNonRoot", .bool true), ("runAsUser", .num 1000),
             ("runAsGroup", .num 2000), ("fsGroup", .num 3000)])]),
        ("metadata", .obj [("labels", .obj [("app", .str "x")])])])
  ∧ (mutChain defaultMutChain "Pod" basePodObj).2 ≠ basePodObj := by decide

/-- C9 counterexample: with `allowedRegistries = ["docker.io"]` and
`denyLatestTag` set, the image `docker.io/app:latest2` has a `:` and its
tag (the text after the last `:`) is `latest2`, not `latest`, so by the
claim's check (c) the container passes; the code nevertheless denies,
because it tests `":latest" in image` as a substring. -/
theorem c9_counterexample :
    imgValidate ["docker.io"] true latestSubstrReq =
      ⟨false, some "Latest tag is not allowed for image docker.io/app:latest2",
        none⟩
  ∧ hasSubstr "docker.io/app:latest2" ":" = true
  ∧ afterLastColon "docker.io/app:latest2" = "latest2" := by decide

/-- C10 counterexample: a rule's validate entry point returns an
allowed=true result that carries a message ("Image policy validation
passed") — refuting the claimed invariant that the message field is
present iff allowed is false. -/
theorem c10_counterexample :
    baseValidate supportsKind (imgValidate ["docker.io"] true) imgPassEnv =
      ⟨true, some "Image policy validation passed", none⟩ := by decide

/-- One container step of the security-context loop equals the claim-side
per-container check, given the securityContext shape. -/
theorem secLoop_cons (ep enr err : Bool) (cm : JDict) (rest : List Json)
    (scm : JDict)
    (hscm : getD cm "securityContext" (.obj []) = .obj scm)
    (hclaim : (match getK cm "securityContext" with
      | some (Json.obj m) => m
      | _ => ([] : JDict)) = scm) :
    secLoop ep enr err (.obj cm :: rest) =
      match claimSecCtrMsg ep enr err cm with
      | some msg => .ok ⟨false, some msg, none⟩
      | none => secLoop ep enr err rest := by
  have e1 : pyGetD (Json.obj cm) "securityContext" (.obj []) = .ok (.obj scm) := by
    simp [pyGetD, hscm]
  cases hep : ep <;> cases henr : enr <;> cases herr : err <;>
    simp only [secLoop, claimSecCtrMsg, hclaim, e1, Bind.bind, Except.bind,
      Pure.pure, Except.pure, pyGetD, if_true, if_false, Bool.true_and,
      Bool.false_and, Bool.and_self] <;>
    repeat' split <;>
    simp_all

/-- The security-context container loop equals the claim-side scan. -/
theorem secLoop_eq (ep enr err : Bool) :
    ∀ cs : List JDict, (∀ c ∈ cs, scShaped c = true) →
      secLoop ep enr err (cs.map Json.obj) = .ok (claimSecScan ep enr err cs)
  | [], _ => rfl
  | c :: rest, h => by
      have hm := h c (List.mem_cons_self c rest)
      obtain ⟨scm, h1, h2⟩ : ∃ scm : JDict,
          getD c "securityContext" (.obj []) = .obj scm ∧
          (match getK c "securityContext" with
            | some (Json.obj m) => m
            | _ => ([] : JDict)) = scm := by
        unfold scShaped at hm
        rcases hg : getK c "securityContext" with _ | v
        · exact ⟨[], by simp [getD, hg], by simp [hg]⟩
        · cases v <;> rw [hg] at hm <;> simp at hm
          case obj m => exact ⟨m, by simp [getD, hg], by simp [hg]⟩
      rw [List.map_cons, secLoop_cons ep enr err c (rest.map Json.obj) scm h1 h2]
      have hrest := secLoop_eq ep enr err rest
        (fun u hu => h u (List.mem_cons_of_mem c hu))
      cases hmsg : claimSecCtrMsg ep enr err c <;>
        simp only [claimSecScan, hmsg, hrest]

/-- C8: SecurityContextRule evaluates a pod spec in the fixed
deterministic order of the claim: on a request whose object, spec and
containers have the claimed shapes, `_validate` equals the transcribed
evaluation — the hostNetwork check first (when enforced), then the
containers in declaration order with the per-container check order
privileged, then runAsUser == 0, then readOnlyRootFilesystem not true,
returning on the first violation; and a container with no securityContext
passes the privileged and non-root checks but fails the read-only check
(fails exactly when the read-only check is enforced). -/
theorem c8_secctx_rule_order :
    (∀ (ep enr err ehn : Bool) (reqm podm specm : JDict) (cs : List JDict),
        getK reqm "object" = some (.obj podm) →
        getK podm "spec" = some (.obj specm) →
        getK specm "containers" = some (.arr (cs.map Json.obj)) →
        (∀ c ∈ cs, scShaped c = true) →
        secValidate ep enr err ehn (.obj reqm) =
          claimSecEval ep enr err ehn (getD specm "hostNetwork" (.bool false)) cs)
  ∧ (∀ (ep enr : Bool) (c : JDict), containsK c "securityContext" = false →
        claimSecCtrMsg ep enr true c = some "Root filesystem must be read-only"
        ∧ claimSecCtrMsg ep enr false c = none) := by
  constructor
  · intro ep enr err ehn reqm podm specm cs h1 h2 h3 hsh
    have e1 : getD reqm "object" (.obj []) = .obj podm := getD_of_getK _ h1
    have t1 : truthy (Json.obj podm) = true := truthy_obj_of_getK h2
    have c1 : containsK podm "spec" = true := containsK_of_getK h2
    have e2 : getD podm "spec" (.obj []) = .obj specm := getD_of_getK _ h2
    have e3 : getD specm "containers" (.arr []) = .arr (cs.map Json.obj) :=
      getD_of_getK _ h3
    have hloop := secLoop_eq ep enr err cs hsh
    unfold secValidate secBody claimSecEval
    cases hehn : ehn <;>
      cases hhn : truthy (getD specm "hostNetwork" (.bool false)) <;>
      simp only [e1, t1, c1, e2, e3, hhn, notOrMissing, pyContains, pyGetD,
        pyIterate, Bind.bind, Except.bind, Pure.pure, Except.pure, hloop,
        Bool.true_and, Bool.false_and, if_true, if_false, Bool.not_true,
        Bool.not_false, containsK] <;>
      simp [hloop, h2]
  · intro ep enr c h
    cases hgk : getK c "securityContext" with
    | some v =>
        rw [containsK, hgk] at h
        simp at h
    | none =>
        constructor <;>
          (simp only [claimSecCtrMsg, hgk]
           simp [getD, getK, truthy])

/-- C8 witness: a Pod whose single container has no securityContext, all
checks enforced: the rule returns the read-only message. -/
theorem c8_witness :
    secValidate true true true true noSecCtxReq =
      claimSecEval true true true true (Json.bool false) [[("name", Json.str "web")]]
  ∧ claimSecEval true true true true (Json.bool false) [[("name", Json.str "web")]] =
      ⟨false, some "Root filesystem must be read-only", none⟩
  ∧ claimSecCtrMsg true true true [("name", Json.str "web")] =
      some "Root filesystem must be read-only" :=
  ⟨c8_secctx_rule_order.1 true true true true
     [("object", .obj [("spec", .obj [("containers",
        .arr [.obj [("name", Json.str "web")]])])])]
     [("spec", .obj [("containers", .arr [.obj [("name", Json.str "web")]])])]
     [("containers", .arr [.obj [("name", Json.str "web")]])]
     [[("name", Json.str "web")]]
     (by decide) (by decide) (by decide) (by decide),
   by decide,
   (c8_secctx_rule_order.2 true true [("name", Json.str "web")] (by decide)).1⟩

/-- One container step of the image-policy loop equals the claim-side
per-container check, given the image shape. -/
theorem imgLoop_cons (regs : List String) (deny : Bool) (cm : JDict)
    (rest : List Json) (s : String)
    (hs : getD cm "image" (.str "") = .str s) :
    imgLoop regs deny (.obj cm :: rest) =
      match claimImgCtrMsg regs deny cm with
      | some msg => .ok ⟨false, some msg, none⟩
      | none => imgLoop regs deny rest := by
  have e1 : pyGetD (Json.obj cm) "image" (.str "") = .ok (.str s) := by
    simp [pyGetD, hs]
  cases hdeny : deny <;>
    simp only [imgLoop, claimImgCtrMsg, hs, e1, Bind.bind, Except.bind,
      Pure.pure, Except.pure, pyContains, truthy, nameOf] <;>
    repeat' split <;>
    (try rfl) <;>
    (try simp_all [pyStr])

/-- The image-policy container loop equals the claim-side scan. -/
theorem imgLoop_eq (regs : List String) (deny : Bool) :
    ∀ cs : List JDict, (∀ c ∈ cs, imgShaped c = true) →
      imgLoop regs deny (cs.map Json.obj) = .ok (claimImgScan regs deny cs)
  | [], _ => rfl
  | c :: rest, h => by
      have hm := h c (List.mem_cons_self c rest)
      obtain ⟨s, hs⟩ : ∃ s : String, getD c "image" (.str "") = .str s := by
        unfold imgShaped at hm
        rcases hg : getD c "image" (.str "") with _ | _ | _ | t | _ | _ <;>
          rw [hg] at hm <;> simp at hm
        exact ⟨t, rfl⟩
      rw [List.map_cons, imgLoop_cons regs deny c (rest.map Json.obj) s hs]
      have hrest := imgLoop_eq regs deny rest
        (fun u hu => h u (List.mem_cons_of_mem c hu))
      cases hmsg : claimImgCtrMsg regs deny c <;>
        simp only [claimImgScan, hmsg, hrest]

/-- C9 amended: ImagePolicyRule iterates containers in declaration order,
per container checking (a) empty image, (b) registry (prefix before the
first `/`, or the default token) membership, and (c) — when denyLatestTag
is set — failing exactly when `":latest"` occurs as a substring of the
image OR the image has no `:`; the first violation (container order, then
check order) stops evaluation. -/
theorem c9_amended (regs : List String) (deny : Bool)
    (reqm podm specm : JDict) (cs : List JDict)
    (h1 : getK reqm "object" = some (.obj podm))
    (h2 : getK podm "spec" = some (.obj specm))
    (h3 : getK specm "containers" = some (.arr (cs.map Json.obj)))
    (hsh : ∀ c ∈ cs, imgShaped c = true) :
    imgValidate regs deny (.obj reqm) = claimImgScan regs deny cs := by
  have e1 : getD reqm "object" (.obj []) = .obj podm := getD_of_getK _ h1
  have t1 : truthy (Json.obj podm) = true := truthy_obj_of_getK h2
  have c1 : containsK podm "spec" = true := containsK_of_getK h2
  have e2 : getD podm "spec" (.obj []) = .obj specm := getD_of_getK _ h2
  have e3 : getD specm "containers" (.arr []) = .arr (cs.map Json.obj) :=
    getD_of_getK _ h3
  have hloop := imgLoop_eq regs deny cs hsh
  unfold imgValidate imgBody
  simp only [e1, t1, c1, e2, e3, notOrMissing, pyContains, pyGetD,
    pyIterate, Bind.bind, Except.bind, Pure.pure, Except.pure, hloop,
    Bool.not_true, Bool.not_false, if_true, if_false]
  simp [hloop, h2]

/-- C9 amended witness: two containers with disallowed registries — the
scan stops at the first container and names its registry only. -/
theorem c9_amended_witness :
    imgValidate ["docker.io"] true twoViolationsReq =
      claimImgScan ["docker.io"] true
        [[("name", Json.str "first"), ("image", Json.str "gcr.io/app:v1")],
         [("name", Json.str "second"), ("image", Json.str "quay.io/app:v1")]]
  ∧ claimImgScan ["docker.io"] true
        [[("name", Json.str "first"), ("image", Json.str "gcr.io/app:v1")],
         [("name", Json.str "second"), ("image", Json.str "quay.io/app:v1")]] =
      ⟨false, some "Registry gcr.io is not allowed. Allowed registries: docker.io",
        none⟩ :=
  ⟨c9_amended ["docker.io"] true
     [("object", .obj [("spec", .obj [("containers", .arr [
        .obj [("name", .str "first"), ("image", .str "gcr.io/app:v1")],
        .obj [("name", .str "second"), ("image", .str "quay.io/app:v1")]])])])]
     [("spec", .obj [("containers", .arr [
        .obj [("name", .str "first"), ("image", .str "gcr.io/app:v1")],
        .obj [("name", .str "second"), ("image", .str "quay.io/app:v1")]])])]
     [("containers", .arr [
        .obj [("name", .str "first"), ("image", .str "gcr.io/app:v1")],
        .obj [("name", .str "second"), ("image", .str "quay.io/app:v1")]])]
     [[("name", Json.str "first"), ("image", Json.str "gcr.io/app:v1")],
      [("name", Json.str "second"), ("image", Json.str "quay.io/app:v1")]]
     (by decide) (by decide) (by decide) (by decide),
   by decide⟩

/-- A successful image-policy container loop always carries a message. -/
theorem imgLoop_ok_msg (regs : List String) (deny : Bool) :
    ∀ (cs : List Json) (r : ValidationResult),
      imgLoop regs deny cs = .ok r → r.message.isSome
  | [], r, h => by
      simp only [imgLoop] at h
      cases h
      rfl
  | c :: rest, r, h => by
      simp only [imgLoop, Bind.bind, Except.bind, Pure.pure, Except.pure] at h
      repeat' split at h
      all_goals
        first
          | exact imgLoop_ok_msg regs deny rest r h
          | (cases h; rfl)
          | simp_all

/-- A successful resource-requirements container loop always carries a
message. -/
theorem resLoop_ok_msg (enf : Bool) :
    ∀ (cs : List Json) (r : ValidationResult),
      resLoop enf cs = .ok r → r.message.isSome
  | [], r, h => by
      simp only [resLoop] at h
      cases h
      rfl
  | c :: rest, r, h => by
      simp only [resLoop, Bind.bind, Except.bind, Pure.pure, Except.pure] at h
      repeat' split at h
      all_goals
        first
          | exact resLoop_ok_msg enf rest r h
          | (cases h; rfl)
          | simp_all

/-- `ImagePolicyValidator._validate` always returns a message. -/
theorem imgValidate_msg (regs : List String) (deny : Bool) (req : Json) :
    (imgValidate regs deny req).message.isSome := by
  unfold imgValidate
  cases hb : imgBody regs deny req with
  | error e => rfl
  | ok r =>
    simp only []
    unfold imgBody at hb
    simp only [Bind.bind, Except.bind, Pure.pure, Except.pure] at hb
    repeat' split at hb
    all_goals
      first
        | exact imgLoop_ok_msg regs deny _ r hb
        | (cases hb; rfl)
        | simp_all

/-- `ResourceRequirementsValidator._validate` always returns a message. -/
theorem resValidate_msg (enf : Bool) (req : Json) :
    (resValidate enf req).message.isSome := by
  unfold resValidate
  cases hb : resBody enf req with
  | error e => rfl
  | ok r =>
    simp only []
    unfold resBody at hb
    simp only [Bind.bind, Except.bind, Pure.pure, Except.pure] at hb
    repeat' split at hb
    all_goals
      first
        | exact resLoop_ok_msg enf _ r hb
        | (cases hb; rfl)
        | simp_all

/-- `BaseValidator.validate` always returns a message when the underlying
`_validate` does. -/
theorem baseValidate_msg (sup : Json → Bool) (vld : Json → ValidationResult)
    (h : ∀ q, (vld q).message.isSome = true) (ar : Json) :
    (baseValidate sup vld ar).message.isSome := by
  unfold baseValidate
  cases hb : baseBody sup vld ar with
  | error e => rfl
  | ok r =>
    simp only []
    unfold baseBody at hb
    simp only [Bind.bind, Except.bind, Pure.pure, Except.pure] at hb
    repeat' split at hb
    all_goals
      first
        | (cases hb; rfl)
        | (cases hb; exact h _)
        | simp_all

/-- The chain loop's result has a message iff it is a denial, whenever
every validator's result always carries a message. -/
theorem chainGo_msg_iff (r : Json) :
    ∀ (vs : List Validator) (ws : List String),
      (∀ v ∈ vs, ∀ q : Json, ((v.validate q).message).isSome = true) →
      ((chainGo vs r ws).allowed = false ↔ (chainGo vs r ws).message ≠ none)
  | [], ws, _ => by simp [chainGo]
  | v :: rest, ws, h => by
      cases hs : v.supports r with
      | false =>
          rw [chainGo_skip v rest r ws hs]
          exact chainGo_msg_iff r rest ws
            (fun u hu => h u (List.mem_cons_of_mem v hu))
      | true =>
          cases ha : (v.validate r).allowed with
          | false =>
              have hmsg := h v (List.mem_cons_self v rest) r
              rw [chainGo]
              simp only [hs, Bool.not_true, Bool.false_eq_true, if_false, ha,
                Bool.not_false, if_true]
              simp [ha, Option.isSome_iff_ne_none.mp hmsg]
          | true =>
              rw [chainGo]
              simp only [hs, Bool.not_true, Bool.false_eq_true, if_false, ha,
                Bool.not_true]
              simpa using chainGo_msg_iff r rest _
                (fun u hu => h u (List.mem_cons_of_mem v hu))

/-- C10 amended: the chain's results satisfy the invariant — message
present iff allowed is false — because the chain drops allowed-true
messages and every denial carries one; the rules' validate entry points,
however, always attach a message, including on allowed=true results, so
at rule level only the denial direction of the invariant holds. -/
theorem c10_amended :
    (∀ (ep enr err ehn deny enf : Bool) (regs : List String) (r : Json),
        ((chainValidate [secCtxValidator ep enr err ehn,
            imgPolicyValidator regs deny, resReqValidator enf] r).allowed = false
          ↔ (chainValidate [secCtxValidator ep enr err ehn,
            imgPolicyValidator regs deny, resReqValidator enf] r).message ≠ none))
  ∧ (∀ (ep enr err ehn : Bool) (r : Json),
        ((secCtxValidator ep enr err ehn).validate r).message ≠ none)
  ∧ (∀ (regs : List String) (deny : Bool) (r : Json),
        ((imgPolicyValidator regs deny).validate r).message ≠ none)
  ∧ (∀ (enf : Bool) (r : Json),
        ((resReqValidator enf).validate r).message ≠ none) := by
  have hsec : ∀ (ep enr err ehn : Bool) (q : Json),
      ((secCtxValidator ep enr err ehn).validate q).message.isSome = true :=
    fun _ _ _ _ _ => rfl
  have himg : ∀ (regs : List String) (deny : Bool) (q : Json),
      ((imgPolicyValidator regs deny).validate q).message.isSome = true :=
    fun regs deny q => baseValidate_msg supportsKind (imgValidate regs deny)
      (fun p => imgValidate_msg regs deny p) q
  have hres : ∀ (enf : Bool) (q : Json),
      ((resReqValidator enf).validate q).message.isSome = true :=
    fun enf q => baseValidate_msg supportsKind (resValidate enf)
      (fun p => resValidate_msg enf p) q
  refine ⟨?_, ?_, ?_, ?_⟩
  · intro ep enr err ehn deny enf regs r
    apply chainGo_msg_iff
    intro v hv q
    simp only [List.mem_cons, List.mem_singleton, List.not_mem_nil,
      or_false] at hv
    rcases hv with rfl | rfl | rfl
    · exact hsec ep enr err ehn q
    · exact himg regs deny q
    · exact hres enf q
  · intro ep enr err ehn r
    exact Option.isSome_iff_ne_none.mp (hsec ep enr err ehn r)
  · intro regs deny r
    exact Option.isSome_iff_ne_none.mp (himg regs deny r)
  · intro enf r
    exact Option.isSome_iff_ne_none.mp (hres enf r)

end Webhook
